import Mathlib

/-!
Shallow embedding of the pvdb-metrics collector (package `metrics`,
files `metrics.go` and `cmd/root.go`).

The database connection pool is modelled as an oracle mapping each SQL
text to `some count` (a successful `QueryRow(...).Scan(&cnt)`) or `none`
(a query or scan failure), together with the list of SQL texts issued
through the pool so far.  Each Go query function becomes a state-passing
function `Pool → Int × Pool`; `float64(cnt)` is modelled as the exact
integer count.  The collector structure, its `Describe` and `Collect`
methods, and the boot sequence of `rootCmd.Run` are translated
statement by statement from the source.
-/

namespace PvdbMetrics

/-- The connection pool: a result oracle `db` for SQL texts plus the list
of queries issued through the pool so far. -/
structure Pool where
  db : String → Option Int
  issued : List String

/-- Models `conn.QueryRow(context.Background(), sql).Scan(&cnt)`: the query
is issued (recorded in the pool trace) and either a count is scanned
(`some cnt`) or an error occurs (`none`). -/
def Pool.queryRowScan (conn : Pool) (sql : String) : Option Int × Pool :=
  (conn.db sql, { conn with issued := conn.issued ++ [sql] })

/-- SQL text issued by `EodDaily` (metrics.go line 129). -/
def eodDailySQL : String :=
  "SELECT count(*) AS cnt FROM eod WHERE event_date::date = (now() - \x271 day\x27::interval)::date"

/-- SQL text issued by `EodNoFigi` (metrics.go line 139). -/
def eodNoFigiSQL : String :=
  "SELECT count(*) AS cnt FROM eod WHERE composite_figi=\x27\x27"

/-- SQL text issued by `AssetsNew` (metrics.go line 149). -/
def assetsNewSQL : String :=
  "SELECT count(*) AS cnt FROM assets WHERE new = True"

/-- SQL text issued by `AssetsChanged` (metrics.go line 159). -/
def assetsChangedSQL : String :=
  "SELECT count(*) AS cnt FROM assets WHERE updated = True"

/-- SQL text issued by `AssetsRetired` (metrics.go line 169). -/
def assetsRetiredSQL : String :=
  "SELECT count(*) AS cnt FROM assets WHERE active = False AND updated = True"

/-- SQL text issued by `AssetsNoCUSIP` (metrics.go line 179). -/
def assetsNoCusipSQL : String :=
  "SELECT count(*) AS cnt FROM assets WHERE cusip = \x27\x27"

/-- SQL text issued by `AssetsNoFigi` (metrics.go line 189).  Note: the
source issues the eod daily-count query here, not an assets query. -/
def assetsNoFigiSQL : String :=
  "SELECT count(*) AS cnt FROM eod WHERE event_date::date = (now() - \x271 day\x27::interval)::date"

/-- SQL text issued by `SeekingAlphaDaily` (metrics.go line 199). -/
def seekingAlphaDailySQL : String :=
  "SELECT count(*) AS cnt FROM seeking_alpha WHERE event_date::date = now()::date"

/-- SQL text issued by `ZacksFinanceDaily` (metrics.go line 209). -/
def zacksFinanceDailySQL : String :=
  "SELECT count(*) AS cnt FROM zacks_financials WHERE event_date::date = now()::date"

/-- `func EodDaily(conn *pgxpool.Pool) float64`: scan the count; on error
log and return 0. -/
def EodDaily (conn : Pool) : Int × Pool :=
  match conn.queryRowScan eodDailySQL with
  | (some cnt, conn2) => (cnt, conn2)
  | (none, conn2) => (0, conn2)

/-- `func EodNoFigi(conn *pgxpool.Pool) float64`. -/
def EodNoFigi (conn : Pool) : Int × Pool :=
  match conn.queryRowScan eodNoFigiSQL with
  | (some cnt, conn2) => (cnt, conn2)
  | (none, conn2) => (0, conn2)

/-- `func AssetsNew(conn *pgxpool.Pool) float64`. -/
def AssetsNew (conn : Pool) : Int × Pool :=
  match conn.queryRowScan assetsNewSQL with
  | (some cnt, conn2) => (cnt, conn2)
  | (none, conn2) => (0, conn2)

/-- `func AssetsChanged(conn *pgxpool.Pool) float64`. -/
def AssetsChanged (conn : Pool) : Int × Pool :=
  match conn.queryRowScan assetsChangedSQL with
  | (some cnt, conn2) => (cnt, conn2)
  | (none, conn2) => (0, conn2)

/-- `func AssetsRetired(conn *pgxpool.Pool) float64`. -/
def AssetsRetired (conn : Pool) : Int × Pool :=
  match conn.queryRowScan assetsRetiredSQL with
  | (some cnt, conn2) => (cnt, conn2)
  | (none, conn2) => (0, conn2)

/-- `func AssetsNoCUSIP(conn *pgxpool.Pool) float64`. -/
def AssetsNoCUSIP (conn : Pool) : Int × Pool :=
  match conn.queryRowScan assetsNoCusipSQL with
  | (some cnt, conn2) => (cnt, conn2)
  | (none, conn2) => (0, conn2)

/-- `func AssetsNoFigi(conn *pgxpool.Pool) float64`.  Issues
`assetsNoFigiSQL`, which in the source is the eod daily-count query. -/
def AssetsNoFigi (conn : Pool) : Int × Pool :=
  match conn.queryRowScan assetsNoFigiSQL with
  | (some cnt, conn2) => (cnt, conn2)
  | (none, conn2) => (0, conn2)

/-- `func SeekingAlphaDaily(conn *pgxpool.Pool) float64`. -/
def SeekingAlphaDaily (conn : Pool) : Int × Pool :=
  match conn.queryRowScan seekingAlphaDailySQL with
  | (some cnt, conn2) => (cnt, conn2)
  | (none, conn2) => (0, conn2)

/-- `func ZacksFinanceDaily(conn *pgxpool.Pool) float64`. -/
def ZacksFinanceDaily (conn : Pool) : Int × Pool :=
  match conn.queryRowScan zacksFinanceDailySQL with
  | (some cnt, conn2) => (cnt, conn2)
  | (none, conn2) => (0, conn2)

/-- A metric descriptor (`prometheus.Desc`): fully-qualified name, help
text, variable label names and constant labels (both nil here). -/
structure Desc where
  fqName : String
  help : String
  variableLabels : List String
  constLabels : List (String × String)
deriving DecidableEq, Repr

/-- The metric value type; this exporter only uses `prometheus.GaugeValue`. -/
inductive ValueType
  | gauge
  | counter
  | untyped
deriving DecidableEq, Repr

/-- A constant metric sample (`prometheus.MustNewConstMetric`): a
descriptor paired with a value type and a numeric value. -/
structure Metric where
  desc : Desc
  valueType : ValueType
  value : Int
deriving DecidableEq, Repr

/-- `prometheus.MustNewConstMetric(desc, valueType, value)`. -/
def MustNewConstMetric (d : Desc) (t : ValueType) (v : Int) : Metric :=
  { desc := d, valueType := t, value := v }

/-- `type dbStatsCollector struct`: the held pool and the nine
descriptors. -/
structure dbStatsCollector where
  pool : Pool
  eodDaily : Desc
  eodNoFigi : Desc
  assetsNew : Desc
  assetsChanged : Desc
  assetsRetired : Desc
  assetsNoCusip : Desc
  assetsNoFigi : Desc
  seekingAlphaDaily : Desc
  zacksFinancialDaily : Desc

/-- The local `fqName` closure of `NewDbStatsCollector`: join namespace,
subsystem and name with underscores. -/
def fqName (ns subsystem name : String) : String :=
  ns ++ "_" ++ subsystem ++ "_" ++ name

/-- `func NewDbStatsCollector(pool *pgxpool.Pool) prometheus.Collector`. -/
def NewDbStatsCollector (pool : Pool) : dbStatsCollector :=
  { pool := pool
  , eodDaily := ⟨fqName "pvdb" "eod" "daily",
      "Number of EOD quotes downloaded today", [], []⟩
  , eodNoFigi := ⟨fqName "pvdb" "eod" "no_figi",
      "Number of EOD quotes downloaded today", [], []⟩
  , assetsNew := ⟨fqName "pvdb" "assets" "new",
      "Number of new assets in the last 24 hours", [], []⟩
  , assetsChanged := ⟨fqName "pvdb" "assets" "changed",
      "Number of changed assets in the last 24 hours", [], []⟩
  , assetsRetired := ⟨fqName "pvdb" "assets" "retired",
      "Number of retired assets in the last 24 hours", [], []⟩
  , assetsNoCusip := ⟨fqName "pvdb" "assets" "no_cusip",
      "Number of assets with no CUSIP", [], []⟩
  , assetsNoFigi := ⟨fqName "pvdb" "assets" "no_figi",
      "Number of assets with no Composite FIGI", [], []⟩
  , seekingAlphaDaily := ⟨fqName "pvdb" "seeking_alpha" "daily",
      "Number of Seeking Alpha ratings in last 24 hours", [], []⟩
  , zacksFinancialDaily := ⟨fqName "pvdb" "zacks_finance" "daily",
      "Number of Zacks Finance records in last 24 hours", [], []⟩
  }

/-- `func (c *dbStatsCollector) Describe(ch chan<- *prometheus.Desc)`:
the sequence of descriptors sent on the channel, together with the
collector as the call leaves it (the method mutates nothing). -/
def dbStatsCollector.Describe (c : dbStatsCollector) :
    List Desc × dbStatsCollector :=
  ([ c.eodDaily, c.eodNoFigi
   , c.assetsNew, c.assetsChanged, c.assetsRetired, c.assetsNoCusip
   , c.assetsNoFigi
   , c.seekingAlphaDaily, c.zacksFinancialDaily ], c)

/-- `func (c *dbStatsCollector) Collect(ch chan<- prometheus.Metric)`:
the sequence of samples sent on the channel, one per descriptor, each
valued by its query function evaluated against the held pool (the shared
pool handle threads through the nine calls); the returned collector
holds the pool as the call leaves it. -/
def dbStatsCollector.Collect (c : dbStatsCollector) :
    List Metric × dbStatsCollector :=
  let (v1, p1) := EodDaily c.pool
  let (v2, p2) := EodNoFigi p1
  let (v3, p3) := AssetsNew p2
  let (v4, p4) := AssetsChanged p3
  let (v5, p5) := AssetsRetired p4
  let (v6, p6) := AssetsNoCUSIP p5
  let (v7, p7) := AssetsNoFigi p6
  let (v8, p8) := SeekingAlphaDaily p7
  let (v9, p9) := ZacksFinanceDaily p8
  ([ MustNewConstMetric c.eodDaily ValueType.gauge v1
   , MustNewConstMetric c.eodNoFigi ValueType.gauge v2
   , MustNewConstMetric c.assetsNew ValueType.gauge v3
   , MustNewConstMetric c.assetsChanged ValueType.gauge v4
   , MustNewConstMetric c.assetsRetired ValueType.gauge v5
   , MustNewConstMetric c.assetsNoCusip ValueType.gauge v6
   , MustNewConstMetric c.assetsNoFigi ValueType.gauge v7
   , MustNewConstMetric c.seekingAlphaDaily ValueType.gauge v8
   , MustNewConstMetric c.zacksFinancialDaily ValueType.gauge v9
   ], { c with pool := p9 })

/-- The SQL texts of the nine query functions, in `Collect` order. -/
def sqlCatalogue : List String :=
  [ eodDailySQL, eodNoFigiSQL
  , assetsNewSQL, assetsChangedSQL, assetsRetiredSQL, assetsNoCusipSQL
  , assetsNoFigiSQL
  , seekingAlphaDailySQL, zacksFinanceDailySQL ]

/-- The nine query functions, in `Collect` order. -/
def queryFns : List (Pool → Int × Pool) :=
  [ EodDaily, EodNoFigi
  , AssetsNew, AssetsChanged, AssetsRetired, AssetsNoCUSIP
  , AssetsNoFigi
  , SeekingAlphaDaily, ZacksFinanceDaily ]

/-- Observable actions of the boot sequence (`cmd/root.go`). -/
inductive RunEvent
  | logConnectError
  | registerCollector
  | logStartServer
  | listenAndServe
  | exitProcess
deriving DecidableEq, Repr

/-- `rootCmd.Run` (root.go lines 70 to 92), statement by statement:
connect to the database; on error log it (without returning or
exiting); register `NewDbStatsCollector(pool)` on the registry; log and
start the HTTP server.  `connectErr` records whether `pgxpool.Connect`
failed; `pool` is the handle the call returned either way. -/
def rootCmdRun (connectErr : Bool) (pool : Pool) :
    List RunEvent × dbStatsCollector :=
  ( (if connectErr then [RunEvent.logConnectError] else []) ++
      [RunEvent.registerCollector, RunEvent.logStartServer,
       RunEvent.listenAndServe]
  , NewDbStatsCollector pool )

/-- `func Execute()` (root.go lines 97 to 102): run the root command; on
a command error exit with status 1, otherwise the events are those of
`rootCmd.Run`. -/
def Execute (cmdErr : Bool) (connectErr : Bool) (pool : Pool) :
    List RunEvent :=
  if cmdErr then [RunEvent.exitProcess]
  else (rootCmdRun connectErr pool).1

/-- A pool on which every query fails. -/
def brokenPool : Pool :=
  { db := fun _ => none, issued := [] }

/-- A healthy pool answering every query with the count 5. -/
def constPool : Pool :=
  { db := fun _ => some 5, issued := [] }

/-- Characterization of `EodDaily`: the value is the scanned count or 0
on failure, and only the trace of the pool changes. -/
theorem EodDaily_eq (p : Pool) :
    EodDaily p = ((p.db eodDailySQL).getD 0,
      { p with issued := p.issued ++ [eodDailySQL] }) := by
  unfold EodDaily Pool.queryRowScan
  cases p.db eodDailySQL <;> rfl

/-- Characterization of `EodNoFigi`. -/
theorem EodNoFigi_eq (p : Pool) :
    EodNoFigi p = ((p.db eodNoFigiSQL).getD 0,
      { p with issued := p.issued ++ [eodNoFigiSQL] }) := by
  unfold EodNoFigi Pool.queryRowScan
  cases p.db eodNoFigiSQL <;> rfl

/-- Characterization of `AssetsNew`. -/
theorem AssetsNew_eq (p : Pool) :
    AssetsNew p = ((p.db assetsNewSQL).getD 0,
      { p with issued := p.issued ++ [assetsNewSQL] }) := by
  unfold AssetsNew Pool.queryRowScan
  cases p.db assetsNewSQL <;> rfl

/-- Characterization of `AssetsChanged`. -/
theorem AssetsChanged_eq (p : Pool) :
    AssetsChanged p = ((p.db assetsChangedSQL).getD 0,
      { p with issued := p.issued ++ [assetsChangedSQL] }) := by
  unfold AssetsChanged Pool.queryRowScan
  cases p.db assetsChangedSQL <;> rfl

/-- Characterization of `AssetsRetired`. -/
theorem AssetsRetired_eq (p : Pool) :
    AssetsRetired p = ((p.db assetsRetiredSQL).getD 0,
      { p with issued := p.issued ++ [assetsRetiredSQL] }) := by
  unfold AssetsRetired Pool.queryRowScan
  cases p.db assetsRetiredSQL <;> rfl

/-- Characterization of `AssetsNoCUSIP`. -/
theorem AssetsNoCUSIP_eq (p : Pool) :
    AssetsNoCUSIP p = ((p.db assetsNoCusipSQL).getD 0,
      { p with issued := p.issued ++ [assetsNoCusipSQL] }) := by
  unfold AssetsNoCUSIP Pool.queryRowScan
  cases p.db assetsNoCusipSQL <;> rfl

/-- Characterization of `AssetsNoFigi`. -/
theorem AssetsNoFigi_eq (p : Pool) :
    AssetsNoFigi p = ((p.db assetsNoFigiSQL).getD 0,
      { p with issued := p.issued ++ [assetsNoFigiSQL] }) := by
  unfold AssetsNoFigi Pool.queryRowScan
  cases p.db assetsNoFigiSQL <;> rfl

/-- Characterization of `SeekingAlphaDaily`. -/
theorem SeekingAlphaDaily_eq (p : Pool) :
    SeekingAlphaDaily p = ((p.db seekingAlphaDailySQL).getD 0,
      { p with issued := p.issued ++ [seekingAlphaDailySQL] }) := by
  unfold SeekingAlphaDaily Pool.queryRowScan
  cases p.db seekingAlphaDailySQL <;> rfl

/-- Characterization of `ZacksFinanceDaily`. -/
theorem ZacksFinanceDaily_eq (p : Pool) :
    ZacksFinanceDaily p = ((p.db zacksFinanceDailySQL).getD 0,
      { p with issued := p.issued ++ [zacksFinanceDailySQL] }) := by
  unfold ZacksFinanceDaily Pool.queryRowScan
  cases p.db zacksFinanceDailySQL <;> rfl

/-- Characterization of `Collect`: the emitted sample list pairs each
descriptor with the oracle answer to its SQL text (0 on failure), and
the pool trace grows by the nine SQL texts in order. -/
theorem Collect_eq (c : dbStatsCollector) :
    c.Collect =
      ([ MustNewConstMetric c.eodDaily ValueType.gauge
           ((c.pool.db eodDailySQL).getD 0)
       , MustNewConstMetric c.eodNoFigi ValueType.gauge
           ((c.pool.db eodNoFigiSQL).getD 0)
       , MustNewConstMetric c.assetsNew ValueType.gauge
           ((c.pool.db assetsNewSQL).getD 0)
       , MustNewConstMetric c.assetsChanged ValueType.gauge
           ((c.pool.db assetsChangedSQL).getD 0)
       , MustNewConstMetric c.assetsRetired ValueType.gauge
           ((c.pool.db assetsRetiredSQL).getD 0)
       , MustNewConstMetric c.assetsNoCusip ValueType.gauge
           ((c.pool.db assetsNoCusipSQL).getD 0)
       , MustNewConstMetric c.assetsNoFigi ValueType.gauge
           ((c.pool.db assetsNoFigiSQL).getD 0)
       , MustNewConstMetric c.seekingAlphaDaily ValueType.gauge
           ((c.pool.db seekingAlphaDailySQL).getD 0)
       , MustNewConstMetric c.zacksFinancialDaily ValueType.gauge
           ((c.pool.db zacksFinanceDailySQL).getD 0)
       ],
       { c with pool := { c.pool with issued := c.pool.issued ++ sqlCatalogue } }) := by
  simp [dbStatsCollector.Collect, EodDaily_eq, EodNoFigi_eq, AssetsNew_eq,
    AssetsChanged_eq, AssetsRetired_eq, AssetsNoCUSIP_eq, AssetsNoFigi_eq,
    SeekingAlphaDaily_eq, ZacksFinanceDaily_eq, sqlCatalogue]

/-- Modelled from the spec: the repository contains no query for rows of
the assets table with an empty composite-identifier field, although the
spec table entry for the assets-no-figi metric ("rows in the assets
table with an empty composite-identifier field") requires one; this
names that intended query so that a pool can carry a count for it. -/
def intendedAssetsNoFigiSQL : String :=
  "SELECT count(*) AS cnt FROM assets WHERE composite_figi = \x27\x27"

/-- A result oracle realizing the fixed-counts scenario of the spec:
quotes-yesterday 42, quotes-missing-id 3, new-assets 5, changed-assets
7, retired-assets 1, missing-cusip 0, missing-composite-id 2,
provider-A-today 100, provider-B-today 88. -/
def fixedCountsDb : String → Option Int := fun sql =>
  if sql = eodDailySQL then some 42
  else if sql = eodNoFigiSQL then some 3
  else if sql = assetsNewSQL then some 5
  else if sql = assetsChangedSQL then some 7
  else if sql = assetsRetiredSQL then some 1
  else if sql = assetsNoCusipSQL then some 0
  else if sql = intendedAssetsNoFigiSQL then some 2
  else if sql = seekingAlphaDailySQL then some 100
  else if sql = zacksFinanceDailySQL then some 88
  else none

/-- The pool carrying the fixed-counts oracle. -/
def fixedPool : Pool :=
  { db := fixedCountsDb, issued := [] }

/-- A healthy pool whose trace already holds one query. -/
def constPoolUsed : Pool :=
  { db := fun _ => some 5, issued := [eodDailySQL] }

/-- C1: in every pool state, one Collect pass emits exactly one sample
per descriptor declared by Describe: the emitted descriptor sequence
(hence its multiset) equals the declared sequence of nine descriptors,
with none extra and none omitted. -/
theorem collect_emits_exactly_declared_descriptors (c : dbStatsCollector) :
    c.Collect.1.map Metric.desc = c.Describe.1 ∧
    (c.Collect.1.map Metric.desc : Multiset Desc) = (c.Describe.1 : Multiset Desc) ∧
    c.Describe.1.length = 9 := by
  have h : c.Collect.1.map Metric.desc = c.Describe.1 := by
    simp [Collect_eq, dbStatsCollector.Describe, MustNewConstMetric]
  exact ⟨h, by rw [h], rfl⟩

/-- C2 (code bug): on the fixed-counts pool, Collect emits the values
42, 3, 5, 7, 1, 0, 42, 100, 88 — the seventh sample, attached to the
assets-no-figi descriptor, carries 42 (the quotes-yesterday count) and
not the missing-composite-id count 2 held by the pool, because
`AssetsNoFigi` issues the eod daily query. -/
theorem collect_fixed_counts_bug :
    (NewDbStatsCollector fixedPool).Collect.1.map Metric.value
      = [42, 3, 5, 7, 1, 0, 42, 100, 88] ∧
    ((NewDbStatsCollector fixedPool).Collect.1)[6]?.map Metric.desc
      = some (NewDbStatsCollector fixedPool).assetsNoFigi ∧
    ((NewDbStatsCollector fixedPool).Collect.1)[6]?.map Metric.value = some 42 ∧
    fixedPool.db intendedAssetsNoFigiSQL = some 2 := by
  decide

/-- C3 (code bug): the SQL text issued by `AssetsNoFigi` is the eod
daily-count query, not a query over the assets table; on the
fixed-counts pool, whose assets-missing-composite-identifier count is
2, the function returns 42. -/
theorem assetsNoFigi_queries_eod_bug :
    assetsNoFigiSQL = eodDailySQL ∧
    assetsNoFigiSQL ≠ intendedAssetsNoFigiSQL ∧
    (AssetsNoFigi fixedPool).1 = 42 ∧
    fixedPool.db intendedAssetsNoFigiSQL = some 2 := by
  decide

/-- C4: if the pool state fails the i-th catalogued query, the i-th
query function returns exactly 0 (no error escapes, since the functions
are total), the i-th sample of the Collect pass has value 0, and the
pass still emits all nine samples. -/
theorem query_failure_yields_zero_sample (p : Pool) (i : Nat) (sql : String)
    (hsql : sqlCatalogue[i]? = some sql) (hfail : p.db sql = none) :
    ((queryFns.map fun f => (f p).1)[i]? = some 0) ∧
    ((NewDbStatsCollector p).Collect.1.map Metric.value)[i]? = some 0 ∧
    (NewDbStatsCollector p).Collect.1.length = 9 := by
  rcases i with _|_|_|_|_|_|_|_|_|i <;>
    simp [sqlCatalogue] at hsql <;>
    subst hsql <;>
    simp [queryFns, Collect_eq, NewDbStatsCollector, MustNewConstMetric,
      EodDaily_eq, EodNoFigi_eq, AssetsNew_eq, AssetsChanged_eq,
      AssetsRetired_eq, AssetsNoCUSIP_eq, AssetsNoFigi_eq,
      SeekingAlphaDaily_eq, ZacksFinanceDaily_eq, hfail]

/-- Witness for C4 at the all-failing pool and the first catalogued
query. -/
theorem query_failure_yields_zero_sample_witness :
    sqlCatalogue[0]? = some eodDailySQL ∧
    brokenPool.db eodDailySQL = none ∧
    (((queryFns.map fun f => (f brokenPool).1)[0]? = some 0) ∧
     ((NewDbStatsCollector brokenPool).Collect.1.map Metric.value)[0]? = some 0 ∧
     (NewDbStatsCollector brokenPool).Collect.1.length = 9) :=
  ⟨rfl, rfl, query_failure_yields_zero_sample brokenPool 0 eodDailySQL rfl rfl⟩

/-- C5: Describe is idempotent and restartable: a second Describe call,
on the collector as the first call left it, yields the identical
descriptor sequence, finite of length nine, and the call leaves the
collector unchanged. -/
theorem describe_idempotent (c : dbStatsCollector) :
    (c.Describe.2.Describe).1 = c.Describe.1 ∧
    c.Describe.2 = c ∧
    c.Describe.1.length = 9 :=
  ⟨rfl, rfl, rfl⟩

/-- C6: Describe never touches the database: its output is the same for
every pool state held by the collector, and the call leaves the pool
(both oracle and issued-query trace) untouched — no query is issued. -/
theorem describe_touches_no_database (c : dbStatsCollector) (p : Pool) :
    ({ c with pool := p } : dbStatsCollector).Describe.1 = c.Describe.1 ∧
    c.Describe.2.pool.issued = c.pool.issued ∧
    c.Describe.2.pool.db = c.pool.db :=
  ⟨rfl, rfl, rfl⟩

/-- C7: under the precondition that the database answers every query
with a non-negative count, every query function returns a non-negative
value (the scanned count on success, 0 on failure), and every sample of
a Collect pass carries a non-negative value. -/
theorem query_values_nonneg (p : Pool) (h : ∀ s n, p.db s = some n → 0 ≤ n) :
    (∀ f ∈ queryFns, 0 ≤ (f p).1) ∧
    ∀ m ∈ (NewDbStatsCollector p).Collect.1, 0 ≤ m.value := by
  have key : ∀ s, (0 : Int) ≤ (p.db s).getD 0 := by
    intro s
    cases hs : p.db s with
    | none => simp
    | some n => simpa using h s n hs
  constructor
  · intro f hf
    simp [queryFns] at hf
    rcases hf with hf | hf | hf | hf | hf | hf | hf | hf | hf <;> subst hf <;>
      simp [EodDaily_eq, EodNoFigi_eq, AssetsNew_eq, AssetsChanged_eq,
        AssetsRetired_eq, AssetsNoCUSIP_eq, AssetsNoFigi_eq,
        SeekingAlphaDaily_eq, ZacksFinanceDaily_eq, key]
  · intro m hm
    simp [Collect_eq, MustNewConstMetric] at hm
    rcases hm with hm | hm | hm | hm | hm | hm | hm | hm | hm <;> subst hm <;>
      exact key _

/-- Witness for C7 at a healthy pool answering every query with 5. -/
theorem query_values_nonneg_witness :
    (∀ s n, constPool.db s = some n → 0 ≤ n) ∧
    ((∀ f ∈ queryFns, 0 ≤ (f constPool).1) ∧
     ∀ m ∈ (NewDbStatsCollector constPool).Collect.1, 0 ≤ m.value) :=
  ⟨fun _ n hn => by injection hn with h2; omega,
   query_values_nonneg constPool (fun _ n hn => by injection hn with h2; omega)⟩

/-- C8: when the database connect fails at boot, `rootCmd.Run` logs the
connect error, does not exit, and still registers the collector (bound
to the returned, non-functional pool) and starts the scrape server. -/
theorem connect_failure_does_not_exit (p : Pool) :
    (rootCmdRun true p).1 =
      [RunEvent.logConnectError, RunEvent.registerCollector,
       RunEvent.logStartServer, RunEvent.listenAndServe] ∧
    RunEvent.exitProcess ∉ (rootCmdRun true p).1 ∧
    RunEvent.registerCollector ∈ (rootCmdRun true p).1 ∧
    RunEvent.listenAndServe ∈ (rootCmdRun true p).1 ∧
    (rootCmdRun true p).2 = NewDbStatsCollector p := by
  refine ⟨rfl, ?_, ?_, ?_, rfl⟩ <;> simp [rootCmdRun]

/-- C9: `EodDaily` and `AssetsNoFigi` issue the identical SQL text, so
they agree on every pool state, and in every Collect pass the first
(eod-daily) and seventh (assets-no-figi) samples carry the same value. -/
theorem assetsNoFigi_duplicates_eodDaily (p : Pool) (c : dbStatsCollector) :
    assetsNoFigiSQL = eodDailySQL ∧
    (AssetsNoFigi p).1 = (EodDaily p).1 ∧
    (c.Collect.1.map Metric.value)[6]? = (c.Collect.1.map Metric.value)[0]? := by
  refine ⟨rfl, ?_, ?_⟩
  · rw [AssetsNoFigi_eq, EodDaily_eq]
    rfl
  · simp [Collect_eq, MustNewConstMetric]
    rfl

/-- C10: Collect is deterministic in the pool oracle: two collectors
whose pools answer every query identically emit identical sample
sequences; a second Collect call on the collector as the first left it
emits the same sequence again; and the samples follow the Describe
order. -/
theorem collect_deterministic (p1 p2 : Pool) (hdb : ∀ s, p1.db s = p2.db s) :
    (NewDbStatsCollector p1).Collect.1 = (NewDbStatsCollector p2).Collect.1 ∧
    ((NewDbStatsCollector p1).Collect.2.Collect).1
      = (NewDbStatsCollector p1).Collect.1 ∧
    (NewDbStatsCollector p1).Collect.1.map Metric.desc
      = ((NewDbStatsCollector p1).Describe).1 := by
  refine ⟨?_, ?_, ?_⟩
  · simp [Collect_eq, NewDbStatsCollector, hdb]
  · simp [Collect_eq]
  · simp [Collect_eq, dbStatsCollector.Describe, MustNewConstMetric]

/-- Witness for C10 at two healthy pools with the same oracle but
different traces. -/
theorem collect_deterministic_witness :
    (∀ s, constPool.db s = constPoolUsed.db s) ∧
    ((NewDbStatsCollector constPool).Collect.1
       = (NewDbStatsCollector constPoolUsed).Collect.1 ∧
     ((NewDbStatsCollector constPool).Collect.2.Collect).1
       = (NewDbStatsCollector constPool).Collect.1 ∧
     (NewDbStatsCollector constPool).Collect.1.map Metric.desc
       = ((NewDbStatsCollector constPool).Describe).1) :=
  ⟨fun _ => rfl, collect_deterministic constPool constPoolUsed (fun _ => rfl)⟩

end PvdbMetrics
